import Mathlib

/-!
Verification of the BME280 environmental sensor reader
(`src/adapters/src/sensors/helpers/read_bme280.py`).

The development shallowly embeds the two stages of the reader:

* the Calibration Loader, which decodes two raw byte blocks (26 bytes at
  register 0x88, 7 bytes at 0xE1) into typed calibration coefficients —
  each list access of the Python code is modelled as a fallible read, so
  an out-of-range index surfaces as the single decoding error; and
* the Compensation Engine, the chain of floating-point compensation
  formulas, embedded over `ℚ` (exact field arithmetic mirroring the
  source expressions term by term).

Bytes are modelled as `Nat`; claims that assume the I2C layer's guarantee
that each byte lies in [0, 255] carry that bound as a hypothesis.
-/

namespace BME280

/-- The single decoding failure surfaced by the calibration loader. -/
inductive CalError where
  | MalformedCalibration
deriving Repr, DecidableEq

/-- Typed calibration coefficients, as decoded by the source
(`dig_T1..dig_T3`, `dig_P1..dig_P9`, `dig_H1..dig_H6`). -/
structure CalibrationSet where
  t1 : Nat
  t2 : Int
  t3 : Int
  p1 : Nat
  p2 : Int
  p3 : Int
  p4 : Int
  p5 : Int
  p6 : Int
  p7 : Int
  p8 : Int
  p9 : Int
  h1 : Nat
  h2 : Int
  h3 : Nat
  h4 : Nat
  h5 : Nat
  h6 : Int
deriving Repr, DecidableEq

/-- A single byte access `block[i]` of the Python source: out-of-range
indexing raises, which the embedding reports as the decoding error. -/
def readByte (l : List Nat) (i : Nat) : Except CalError Nat :=
  match l.get? i with
  | some b => Except.ok b
  | none => Except.error CalError.MalformedCalibration

/-- Two's-complement reinterpretation of a 16-bit value
(`struct.unpack` with format `<h`). -/
def toS16 (n : Nat) : Int :=
  if n < 32768 then (n : Int) else (n : Int) - 65536

/-- Two's-complement reinterpretation of an 8-bit value
(`struct.unpack` with format `<b`). -/
def toS8 (n : Nat) : Int :=
  if n < 128 then (n : Int) else (n : Int) - 256

/-- Little-endian signed 16-bit field from two consecutive bytes
(`struct.unpack('<h', bytes(block[i:i+2]))[0]`). -/
def unpackS16 (lo hi : Nat) : Int :=
  toS16 (lo + 256 * hi)

/-- The calibration decoder: the straight-line decoding of the Python
source, reading `cal1` (block A) and `cal2` (block B) in source order.
Every list access is a fallible `readByte`. -/
def decodeCalibration (cal1 cal2 : List Nat) : Except CalError CalibrationSet := do
  let a0 ← readByte cal1 0
  let a1 ← readByte cal1 1
  let dig_T1 := a0 ||| (a1 <<< 8)
  let a2 ← readByte cal1 2
  let a3 ← readByte cal1 3
  let dig_T2 := unpackS16 a2 a3
  let a4 ← readByte cal1 4
  let a5 ← readByte cal1 5
  let dig_T3 := unpackS16 a4 a5
  let a6 ← readByte cal1 6
  let a7 ← readByte cal1 7
  let dig_P1 := a6 ||| (a7 <<< 8)
  let a8 ← readByte cal1 8
  let a9 ← readByte cal1 9
  let dig_P2 := unpackS16 a8 a9
  let a10 ← readByte cal1 10
  let a11 ← readByte cal1 11
  let dig_P3 := unpackS16 a10 a11
  let a12 ← readByte cal1 12
  let a13 ← readByte cal1 13
  let dig_P4 := unpackS16 a12 a13
  let a14 ← readByte cal1 14
  let a15 ← readByte cal1 15
  let dig_P5 := unpackS16 a14 a15
  let a16 ← readByte cal1 16
  let a17 ← readByte cal1 17
  let dig_P6 := unpackS16 a16 a17
  let a18 ← readByte cal1 18
  let a19 ← readByte cal1 19
  let dig_P7 := unpackS16 a18 a19
  let a20 ← readByte cal1 20
  let a21 ← readByte cal1 21
  let dig_P8 := unpackS16 a20 a21
  let a22 ← readByte cal1 22
  let a23 ← readByte cal1 23
  let dig_P9 := unpackS16 a22 a23
  let a25 ← readByte cal1 25
  let dig_H1 := a25
  let b0 ← readByte cal2 0
  let b1 ← readByte cal2 1
  let dig_H2 := unpackS16 b0 b1
  let b2 ← readByte cal2 2
  let dig_H3 := b2
  let b3 ← readByte cal2 3
  let b4 ← readByte cal2 4
  let dig_H4 := (b3 <<< 4) ||| (b4 &&& 0x0F)
  let b5 ← readByte cal2 5
  let dig_H5 := (b5 <<< 4) ||| ((b4 >>> 4) &&& 0x0F)
  let b6 ← readByte cal2 6
  let dig_H6 := toS8 b6
  Except.ok
    { t1 := dig_T1, t2 := dig_T2, t3 := dig_T3
      p1 := dig_P1, p2 := dig_P2, p3 := dig_P3, p4 := dig_P4, p5 := dig_P5
      p6 := dig_P6, p7 := dig_P7, p8 := dig_P8, p9 := dig_P9
      h1 := dig_H1, h2 := dig_H2, h3 := dig_H3, h4 := dig_H4, h5 := dig_H5
      h6 := dig_H6 }

/-- The coefficients the decoder produces on in-range blocks, written as a
pure function of the input bytes. -/
def calFields (a b : List Nat) : CalibrationSet where
  t1 := a.getD 0 0 ||| (a.getD 1 0 <<< 8)
  t2 := unpackS16 (a.getD 2 0) (a.getD 3 0)
  t3 := unpackS16 (a.getD 4 0) (a.getD 5 0)
  p1 := a.getD 6 0 ||| (a.getD 7 0 <<< 8)
  p2 := unpackS16 (a.getD 8 0) (a.getD 9 0)
  p3 := unpackS16 (a.getD 10 0) (a.getD 11 0)
  p4 := unpackS16 (a.getD 12 0) (a.getD 13 0)
  p5 := unpackS16 (a.getD 14 0) (a.getD 15 0)
  p6 := unpackS16 (a.getD 16 0) (a.getD 17 0)
  p7 := unpackS16 (a.getD 18 0) (a.getD 19 0)
  p8 := unpackS16 (a.getD 20 0) (a.getD 21 0)
  p9 := unpackS16 (a.getD 22 0) (a.getD 23 0)
  h1 := a.getD 25 0
  h2 := unpackS16 (b.getD 0 0) (b.getD 1 0)
  h3 := b.getD 2 0
  h4 := (b.getD 3 0 <<< 4) ||| (b.getD 4 0 &&& 0x0F)
  h5 := (b.getD 5 0 <<< 4) ||| ((b.getD 4 0 >>> 4) &&& 0x0F)
  h6 := toS8 (b.getD 6 0)

theorem readByte_eq_ok (l : List Nat) (i : Nat) (h : i < l.length) :
    readByte l i = Except.ok (l.getD i 0) := by
  simp [readByte, List.getD_eq_getElem?_getD, List.getElem?_eq_getElem h,
    List.get?_eq_getElem?]

theorem lt_length_of_readByte_ok {l : List Nat} {i v : Nat}
    (h : readByte l i = Except.ok v) : i < l.length := by
  by_contra hlt
  rw [readByte, List.get?_eq_getElem?, List.getElem?_eq_none (by omega)] at h
  exact Except.noConfusion h

theorem bind_ok_exists {α β : Type} {x : Except CalError α}
    {f : α → Except CalError β} {r : β}
    (h : x >>= f = Except.ok r) : ∃ v, x = Except.ok v ∧ f v = Except.ok r := by
  cases x with
  | error e => simp [Bind.bind, Except.bind] at h
  | ok v => exact ⟨v, rfl, by simpa [Bind.bind, Except.bind] using h⟩

/-- On blocks long enough for every access, the decoder returns exactly
the coefficients of `calFields`. -/
theorem decodeCalibration_ok (a b : List Nat)
    (ha : 26 ≤ a.length) (hb : 7 ≤ b.length) :
    decodeCalibration a b = Except.ok (calFields a b) := by
  have ra : ∀ i, i < 26 → readByte a i = Except.ok (a.getD i 0) :=
    fun i hi => readByte_eq_ok a i (by omega)
  have rb : ∀ i, i < 7 → readByte b i = Except.ok (b.getD i 0) :=
    fun i hi => readByte_eq_ok b i (by omega)
  simp only [decodeCalibration,
    ra 0 (by omega), ra 1 (by omega), ra 2 (by omega), ra 3 (by omega),
    ra 4 (by omega), ra 5 (by omega), ra 6 (by omega), ra 7 (by omega),
    ra 8 (by omega), ra 9 (by omega), ra 10 (by omega), ra 11 (by omega),
    ra 12 (by omega), ra 13 (by omega), ra 14 (by omega), ra 15 (by omega),
    ra 16 (by omega), ra 17 (by omega), ra 18 (by omega), ra 19 (by omega),
    ra 20 (by omega), ra 21 (by omega), ra 22 (by omega), ra 23 (by omega),
    ra 25 (by omega),
    rb 0 (by omega), rb 1 (by omega), rb 2 (by omega), rb 3 (by omega),
    rb 4 (by omega), rb 5 (by omega), rb 6 (by omega)]
  rfl

/-- If the decoder succeeds, both blocks were long enough for every
access it performs (block A up to index 25, block B up to index 6). -/
theorem decodeCalibration_ok_bounds {a b : List Nat} {cs : CalibrationSet}
    (h : decodeCalibration a b = Except.ok cs) :
    26 ≤ a.length ∧ 7 ≤ b.length := by
  rw [decodeCalibration] at h
  obtain ⟨v0, h0, h⟩ := bind_ok_exists h
  obtain ⟨v1, h1, h⟩ := bind_ok_exists h
  obtain ⟨v2, h2, h⟩ := bind_ok_exists h
  obtain ⟨v3, h3, h⟩ := bind_ok_exists h
  obtain ⟨v4, h4, h⟩ := bind_ok_exists h
  obtain ⟨v5, h5, h⟩ := bind_ok_exists h
  obtain ⟨v6, h6, h⟩ := bind_ok_exists h
  obtain ⟨v7, h7, h⟩ := bind_ok_exists h
  obtain ⟨v8, h8, h⟩ := bind_ok_exists h
  obtain ⟨v9, h9, h⟩ := bind_ok_exists h
  obtain ⟨v10, h10, h⟩ := bind_ok_exists h
  obtain ⟨v11, h11, h⟩ := bind_ok_exists h
  obtain ⟨v12, h12, h⟩ := bind_ok_exists h
  obtain ⟨v13, h13, h⟩ := bind_ok_exists h
  obtain ⟨v14, h14, h⟩ := bind_ok_exists h
  obtain ⟨v15, h15, h⟩ := bind_ok_exists h
  obtain ⟨v16, h16, h⟩ := bind_ok_exists h
  obtain ⟨v17, h17, h⟩ := bind_ok_exists h
  obtain ⟨v18, h18, h⟩ := bind_ok_exists h
  obtain ⟨v19, h19, h⟩ := bind_ok_exists h
  obtain ⟨v20, h20, h⟩ := bind_ok_exists h
  obtain ⟨v21, h21, h⟩ := bind_ok_exists h
  obtain ⟨v22, h22, h⟩ := bind_ok_exists h
  obtain ⟨v23, h23, h⟩ := bind_ok_exists h
  obtain ⟨v25, h25, h⟩ := bind_ok_exists h
  obtain ⟨w0, g0, h⟩ := bind_ok_exists h
  obtain ⟨w1, g1, h⟩ := bind_ok_exists h
  obtain ⟨w2, g2, h⟩ := bind_ok_exists h
  obtain ⟨w3, g3, h⟩ := bind_ok_exists h
  obtain ⟨w4, g4, h⟩ := bind_ok_exists h
  obtain ⟨w5, g5, h⟩ := bind_ok_exists h
  obtain ⟨w6, g6, h⟩ := bind_ok_exists h
  exact ⟨lt_length_of_readByte_ok h25, lt_length_of_readByte_ok g6⟩

/-- Raw ADC sample extracted from the 8-byte burst read at 0xF7. -/
structure RawSample where
  raw_pressure : Nat
  raw_temperature : Nat
  raw_humidity : Nat
deriving Repr, DecidableEq

/-- Extraction of the raw ADC triple from the 8-byte burst
(`raw[0] << 12 | raw[1] << 4 | raw[2] >> 4`, etc.). -/
def extractRaw (raw : List Nat) : RawSample where
  raw_pressure := (raw.getD 0 0 <<< 12) ||| (raw.getD 1 0 <<< 4) ||| (raw.getD 2 0 >>> 4)
  raw_temperature := (raw.getD 3 0 <<< 12) ||| (raw.getD 4 0 <<< 4) ||| (raw.getD 5 0 >>> 4)
  raw_humidity := (raw.getD 6 0 <<< 8) ||| raw.getD 7 0

/-- Unrounded outputs of the Compensation Engine. -/
structure CompensatedReading where
  temperature_c : ℚ
  pressure_hpa : ℚ
  humidity_pct : ℚ
deriving Repr, DecidableEq

/-- The intermediate fine temperature `t_fine = var1 + var2` of the
temperature compensation step. -/
def tFine (cal : CalibrationSet) (raw_t : Nat) : ℚ :=
  let var1 := ((raw_t : ℚ) / 16384 - (cal.t1 : ℚ) / 1024) * (cal.t2 : ℚ)
  let var2 := (((raw_t : ℚ) / 131072 - (cal.t1 : ℚ) / 8192) ^ 2) * (cal.t3 : ℚ)
  var1 + var2

/-- Compensated temperature in degrees Celsius. -/
def temperatureC (cal : CalibrationSet) (raw_t : Nat) : ℚ :=
  tFine cal raw_t / 5120

/-- The denominator term of the pressure compensation derived from `p1`:
the value of `var1` at the branch point `if var1 != 0`. -/
def pVar1 (cal : CalibrationSet) (t_fine : ℚ) : ℚ :=
  let var1 := t_fine / 2 - 64000
  let var1 := ((cal.p3 : ℚ) * var1 * var1 / 524288 + (cal.p2 : ℚ) * var1) / 524288
  (1 + var1 / 32768) * (cal.p1 : ℚ)

/-- The accumulator `var2` of the pressure compensation at the branch
point. -/
def pVar2 (cal : CalibrationSet) (t_fine : ℚ) : ℚ :=
  let var1 := t_fine / 2 - 64000
  let var2 := var1 * var1 * (cal.p6 : ℚ) / 32768
  let var2 := var2 + var1 * (cal.p5 : ℚ) * 2
  var2 / 4 + (cal.p4 : ℚ) * 65536

/-- The non-degenerate branch of the pressure compensation, dividing by
the (nonzero there) denominator `pVar1`. -/
def pBranch (cal : CalibrationSet) (t_fine : ℚ) (raw_p : Nat) : ℚ :=
  let pressure := 1048576 - (raw_p : ℚ)
  let pressure := ((pressure - pVar2 cal t_fine / 4096) * 6250) / pVar1 cal t_fine
  let var1 := (cal.p9 : ℚ) * pressure * pressure / 2147483648
  let var2 := pressure * (cal.p8 : ℚ) / 32768
  (pressure + (var1 + var2 + (cal.p7 : ℚ)) / 16) / 100

/-- Pressure compensation, transcribed line by line from the source. -/
def pressureHpa (cal : CalibrationSet) (t_fine : ℚ) (raw_p : Nat) : ℚ :=
  let var1 := t_fine / 2 - 64000
  let var2 := var1 * var1 * (cal.p6 : ℚ) / 32768
  let var2 := var2 + var1 * (cal.p5 : ℚ) * 2
  let var2 := var2 / 4 + (cal.p4 : ℚ) * 65536
  let var1 := ((cal.p3 : ℚ) * var1 * var1 / 524288 + (cal.p2 : ℚ) * var1) / 524288
  let var1 := (1 + var1 / 32768) * (cal.p1 : ℚ)
  if var1 ≠ 0 then
    let pressure := 1048576 - (raw_p : ℚ)
    let pressure := ((pressure - var2 / 4096) * 6250) / var1
    let var1 := (cal.p9 : ℚ) * pressure * pressure / 2147483648
    let var2 := pressure * (cal.p8 : ℚ) / 32768
    (pressure + (var1 + var2 + (cal.p7 : ℚ)) / 16) / 100
  else 0

/-- Division made fallible: `none` exactly when the divisor is zero, the
way a float division would raise. -/
def divQ (a b : ℚ) : Option ℚ :=
  if b = 0 then none else some (a / b)

/-- Pressure compensation with every division checked: returns `none` if
any division in the formula divides by zero. -/
def pressureHpaChecked (cal : CalibrationSet) (t_fine : ℚ) (raw_p : Nat) :
    Option ℚ := do
  let var1 := t_fine / 2 - 64000
  let var2 ← divQ (var1 * var1 * (cal.p6 : ℚ)) 32768
  let var2 := var2 + var1 * (cal.p5 : ℚ) * 2
  let q1 ← divQ var2 4
  let var2 := q1 + (cal.p4 : ℚ) * 65536
  let q2 ← divQ ((cal.p3 : ℚ) * var1 * var1) 524288
  let q3 ← divQ (q2 + (cal.p2 : ℚ) * var1) 524288
  let q4 ← divQ q3 32768
  let var1 := (1 + q4) * (cal.p1 : ℚ)
  if var1 ≠ 0 then
    let pressure := 1048576 - (raw_p : ℚ)
    let q5 ← divQ var2 4096
    let pressure ← divQ ((pressure - q5) * 6250) var1
    let v1 ← divQ ((cal.p9 : ℚ) * pressure * pressure) 2147483648
    let v2 ← divQ (pressure * (cal.p8 : ℚ)) 32768
    let q6 ← divQ (v1 + v2 + (cal.p7 : ℚ)) 16
    divQ (pressure + q6) 100
  else
    pure 0

/-- Humidity compensation, transcribed line by line from the source:
degenerate branch when `t_fine - 76800 == 0`, clamp to [0, 100]
otherwise. -/
def humidityPct (cal : CalibrationSet) (t_fine : ℚ) (raw_h : Nat) : ℚ :=
  let h := t_fine - 76800
  if h ≠ 0 then
    let h := ((raw_h : ℚ) - ((cal.h4 : ℚ) * 64 + (cal.h5 : ℚ) / 16384 * h)) *
      ((cal.h2 : ℚ) / 65536 * (1 + (cal.h6 : ℚ) / 67108864 * h *
      (1 + (cal.h3 : ℚ) / 67108864 * h)))
    let h := h * (1 - (cal.h1 : ℚ) * h / 524288)
    max 0 (min 100 h)
  else 0

/-- The Compensation Engine as the source writes it: one straight-line
computation, temperature first, its `t_fine` feeding pressure and
humidity. -/
def compensate (cal : CalibrationSet) (rs : RawSample) : CompensatedReading :=
  let var1 := ((rs.raw_temperature : ℚ) / 16384 - (cal.t1 : ℚ) / 1024) * (cal.t2 : ℚ)
  let var2 := (((rs.raw_temperature : ℚ) / 131072 - (cal.t1 : ℚ) / 8192) ^ 2) * (cal.t3 : ℚ)
  let t_fine := var1 + var2
  let temperature := t_fine / 5120
  let pressure := pressureHpa cal t_fine rs.raw_pressure
  let humidity := humidityPct cal t_fine rs.raw_humidity
  { temperature_c := temperature, pressure_hpa := pressure, humidity_pct := humidity }

/-- Round half to even to an integer, the tie-breaking rule of Python's
`round`. -/
def roundq (x : ℚ) : ℤ :=
  let n := ⌊x⌋
  let r := x - n
  if r < 1 / 2 then n
  else if 1 / 2 < r then n + 1
  else if n % 2 = 0 then n else n + 1

/-- `round(x, d)`: round to `d` decimal places. -/
def roundTo (d : Nat) (x : ℚ) : ℚ :=
  (roundq (x * 10 ^ d) : ℚ) / 10 ^ d

/-- The reading as reported at the boundary: temperature and humidity to
one decimal place, pressure to two. -/
def report (cal : CalibrationSet) (rs : RawSample) : CompensatedReading :=
  let r := compensate cal rs
  { temperature_c := roundTo 1 r.temperature_c
    pressure_hpa := roundTo 2 r.pressure_hpa
    humidity_pct := roundTo 1 r.humidity_pct }

/-- On any pair of blocks in which block A is shorter than 26 bytes or
block B is shorter than 7 bytes, some access is out of range, so decoding
fails. -/
theorem decodeCalibration_err (a b : List Nat)
    (h : a.length < 26 ∨ b.length < 7) :
    decodeCalibration a b = Except.error CalError.MalformedCalibration := by
  cases hd : decodeCalibration a b with
  | ok cs =>
    have := decodeCalibration_ok_bounds hd
    omega
  | error e => cases e; rfl

theorem getD_le_of_forall_le {l : List Nat} {i c : Nat}
    (hi : i < l.length) (hb : ∀ x ∈ l, x ≤ c) : l.getD i 0 ≤ c := by
  rw [List.getD_eq_getElem?_getD, List.getElem?_eq_getElem hi]
  exact hb _ (List.getElem_mem hi)

theorem nibblePack_le {x y : Nat} (hx : x ≤ 255) :
    (x <<< 4) ||| (y &&& 0x0F) ≤ 4095 := by
  have h1 : x <<< 4 < 2 ^ 12 := by rw [Nat.shiftLeft_eq]; omega
  have h2 : y &&& 0x0F < 2 ^ 12 :=
    lt_of_le_of_lt Nat.and_le_right (by norm_num)
  have := Nat.or_lt_two_pow h1 h2
  omega

theorem raw20_lt {x y z : Nat} (hx : x ≤ 255) (hy : y ≤ 255) (hz : z ≤ 255) :
    (x <<< 12) ||| (y <<< 4) ||| (z >>> 4) < 2 ^ 20 := by
  have h1 : x <<< 12 < 2 ^ 20 := by rw [Nat.shiftLeft_eq]; omega
  have h2 : y <<< 4 < 2 ^ 20 := by rw [Nat.shiftLeft_eq]; omega
  have h3 : z >>> 4 < 2 ^ 20 := by
    rw [Nat.shiftRight_eq_div_pow]
    omega
  exact Nat.or_lt_two_pow (Nat.or_lt_two_pow h1 h2) h3

/-- C1 (counterexample): a 27-byte block A — wrong length per the claim —
together with a well-formed 7-byte block B decodes successfully to a full
`CalibrationSet`, so wrong-length input does not always fail. -/
theorem decode_wrong_length_can_succeed :
    (List.replicate 27 (0 : Nat)).length ≠ 26 ∧
      decodeCalibration (List.replicate 27 0) (List.replicate 7 0) =
        Except.ok (calFields (List.replicate 27 0) (List.replicate 7 0)) :=
  ⟨by decide, decodeCalibration_ok _ _ (by decide) (by decide)⟩

/-- C1 (amended): decoding fails — with `MalformedCalibration`, its only
failure mode, and no partial `CalibrationSet` — exactly when block A is
shorter than 26 bytes or block B is shorter than 7 bytes. -/
theorem decode_error_iff_too_short (a b : List Nat) :
    decodeCalibration a b = Except.error CalError.MalformedCalibration ↔
      a.length < 26 ∨ b.length < 7 := by
  constructor
  · intro h
    by_contra hc
    push_neg at hc
    rw [decodeCalibration_ok a b (by omega) (by omega)] at h
    exact Except.noConfusion h
  · exact decodeCalibration_err a b

/-- C7: on every block A of exactly 26 bytes and block B of exactly
7 bytes (each byte in [0, 255]), decoding succeeds with a full
`CalibrationSet` determined purely by the input bytes. -/
theorem decode_total_on_well_formed (a b : List Nat)
    (ha : a.length = 26) (hb : b.length = 7)
    (_hab : ∀ x ∈ a, x ≤ 255) (_hbb : ∀ x ∈ b, x ≤ 255) :
    decodeCalibration a b = Except.ok (calFields a b) :=
  decodeCalibration_ok a b (by omega) (by omega)

theorem decode_total_on_well_formed_witness :
    decodeCalibration (List.replicate 26 0) (List.replicate 7 0) =
      Except.ok (calFields (List.replicate 26 0) (List.replicate 7 0)) :=
  decode_total_on_well_formed _ _ (by decide) (by decide) (by decide) (by decide)

/-- C3: the decoder computes `h4 = (byteB[3] << 4) | (byteB[4] & 0x0F)`
and `h5 = (byteB[5] << 4) | ((byteB[4] >> 4) & 0x0F)` — byte B[4]
contributing its low nibble to `h4` and its high nibble to `h5` — and
both are 12-bit values in [0, 4095]. -/
theorem decode_h4_h5 (a b : List Nat) (cs : CalibrationSet)
    (hd : decodeCalibration a b = Except.ok cs)
    (hbb : ∀ x ∈ b, x ≤ 255) :
    cs.h4 = (b.getD 3 0 <<< 4) ||| (b.getD 4 0 &&& 0x0F) ∧
      cs.h5 = (b.getD 5 0 <<< 4) ||| ((b.getD 4 0 >>> 4) &&& 0x0F) ∧
      cs.h4 ≤ 4095 ∧ cs.h5 ≤ 4095 := by
  obtain ⟨ha, hb⟩ := decodeCalibration_ok_bounds hd
  rw [decodeCalibration_ok a b ha hb] at hd
  obtain rfl : calFields a b = cs := Except.ok.inj hd
  refine ⟨rfl, rfl, ?_, ?_⟩
  · exact nibblePack_le (getD_le_of_forall_le (by omega) hbb)
  · exact nibblePack_le (getD_le_of_forall_le (by omega) hbb)

theorem decode_h4_h5_witness :
    (calFields (List.replicate 26 0) [17, 34, 51, 68, 85, 102, 119]).h4 =
        ((68 : Nat) <<< 4) ||| (85 &&& 0x0F) ∧
      (calFields (List.replicate 26 0) [17, 34, 51, 68, 85, 102, 119]).h5 =
        ((102 : Nat) <<< 4) ||| (((85 : Nat) >>> 4) &&& 0x0F) ∧
      (calFields (List.replicate 26 0) [17, 34, 51, 68, 85, 102, 119]).h4 ≤ 4095 ∧
      (calFields (List.replicate 26 0) [17, 34, 51, 68, 85, 102, 119]).h5 ≤ 4095 :=
  decode_h4_h5 (List.replicate 26 0) [17, 34, 51, 68, 85, 102, 119] _
    (decodeCalibration_ok _ _ (by decide) (by decide)) (by decide)

/-- C8: the raw sample extracted from an 8-byte burst is
`(b0 << 12) | (b1 << 4) | (b2 >> 4)`, `(b3 << 12) | (b4 << 4) | (b5 >> 4)`
and `(b6 << 8) | b7`, the first two below `2 ^ 20` and the last below
`2 ^ 16`. -/
theorem extractRaw_fields_and_bounds (r0 r1 r2 r3 r4 r5 r6 r7 : Nat)
    (h0 : r0 ≤ 255) (h1 : r1 ≤ 255) (h2 : r2 ≤ 255) (h3 : r3 ≤ 255)
    (h4 : r4 ≤ 255) (h5 : r5 ≤ 255) (h6 : r6 ≤ 255) (h7 : r7 ≤ 255) :
    extractRaw [r0, r1, r2, r3, r4, r5, r6, r7] =
        { raw_pressure := (r0 <<< 12) ||| (r1 <<< 4) ||| (r2 >>> 4)
          raw_temperature := (r3 <<< 12) ||| (r4 <<< 4) ||| (r5 >>> 4)
          raw_humidity := (r6 <<< 8) ||| r7 } ∧
      (extractRaw [r0, r1, r2, r3, r4, r5, r6, r7]).raw_pressure < 2 ^ 20 ∧
      (extractRaw [r0, r1, r2, r3, r4, r5, r6, r7]).raw_temperature < 2 ^ 20 ∧
      (extractRaw [r0, r1, r2, r3, r4, r5, r6, r7]).raw_humidity < 2 ^ 16 := by
  refine ⟨rfl, raw20_lt h0 h1 h2, raw20_lt h3 h4 h5, ?_⟩
  have hl : r6 <<< 8 < 2 ^ 16 := by rw [Nat.shiftLeft_eq]; omega
  have hh : (r6 <<< 8) ||| r7 < 2 ^ 16 := Nat.or_lt_two_pow hl (by omega)
  exact hh

theorem extractRaw_fields_and_bounds_witness :
    extractRaw [255, 255, 255, 255, 255, 255, 255, 255] =
        { raw_pressure := ((255 : Nat) <<< 12) ||| (255 <<< 4) ||| (255 >>> 4)
          raw_temperature := ((255 : Nat) <<< 12) ||| (255 <<< 4) ||| (255 >>> 4)
          raw_humidity := ((255 : Nat) <<< 8) ||| 255 } ∧
      (extractRaw [255, 255, 255, 255, 255, 255, 255, 255]).raw_pressure < 2 ^ 20 ∧
      (extractRaw [255, 255, 255, 255, 255, 255, 255, 255]).raw_temperature < 2 ^ 20 ∧
      (extractRaw [255, 255, 255, 255, 255, 255, 255, 255]).raw_humidity < 2 ^ 16 :=
  extractRaw_fields_and_bounds 255 255 255 255 255 255 255 255
    (by decide) (by decide) (by decide) (by decide)
    (by decide) (by decide) (by decide) (by decide)

/-- C10: byte 24 of block A is never read: two 26-byte A blocks that
agree everywhere except index 24 decode to the same coefficients and, for
every raw sample, yield the same reported reading. -/
theorem decode_ignores_byteA24 (a a' b : List Nat)
    (ha : a.length = 26) (ha' : a'.length = 26)
    (hagree : ∀ i, i < 26 → i ≠ 24 → a.getD i 0 = a'.getD i 0) :
    decodeCalibration a b = decodeCalibration a' b ∧
      ∀ rs : RawSample,
        Except.map (fun cal => report cal rs) (decodeCalibration a b) =
          Except.map (fun cal => report cal rs) (decodeCalibration a' b) := by
  have key : decodeCalibration a b = decodeCalibration a' b := by
    by_cases hb : 7 ≤ b.length
    · rw [decodeCalibration_ok a b (by omega) hb,
        decodeCalibration_ok a' b (by omega) hb]
      have e : ∀ i, i < 26 → i ≠ 24 → a.getD i 0 = a'.getD i 0 := hagree
      simp only [calFields,
        e 0 (by omega) (by omega), e 1 (by omega) (by omega),
        e 2 (by omega) (by omega), e 3 (by omega) (by omega),
        e 4 (by omega) (by omega), e 5 (by omega) (by omega),
        e 6 (by omega) (by omega), e 7 (by omega) (by omega),
        e 8 (by omega) (by omega), e 9 (by omega) (by omega),
        e 10 (by omega) (by omega), e 11 (by omega) (by omega),
        e 12 (by omega) (by omega), e 13 (by omega) (by omega),
        e 14 (by omega) (by omega), e 15 (by omega) (by omega),
        e 16 (by omega) (by omega), e 17 (by omega) (by omega),
        e 18 (by omega) (by omega), e 19 (by omega) (by omega),
        e 20 (by omega) (by omega), e 21 (by omega) (by omega),
        e 22 (by omega) (by omega), e 23 (by omega) (by omega),
        e 25 (by omega) (by omega)]
    · rw [decodeCalibration_err a b (Or.inr (by omega)),
        decodeCalibration_err a' b (Or.inr (by omega))]
  exact ⟨key, fun rs => by rw [key]⟩

theorem decode_ignores_byteA24_witness :
    decodeCalibration (List.replicate 26 0) (List.replicate 7 0) =
      decodeCalibration ((List.replicate 26 0).set 24 7) (List.replicate 7 0) :=
  (decode_ignores_byteA24 (List.replicate 26 0) ((List.replicate 26 0).set 24 7)
    (List.replicate 7 0) (by decide) (by decide) (by decide)).1

/-- The pressure compensation is the branch on the `p1`-derived
denominator: the guarded division branch when it is nonzero, `0`
otherwise. -/
theorem pressureHpa_eq_ite (cal : CalibrationSet) (t_fine : ℚ) (raw_p : Nat) :
    pressureHpa cal t_fine raw_p =
      if pVar1 cal t_fine ≠ 0 then pBranch cal t_fine raw_p else 0 := rfl

/-- C2: the humidity produced by the Compensation Engine always lies in
[0, 100]: the non-degenerate branch is `max 0 (min 100 h)` and the
degenerate branch is `0`. -/
theorem humidity_in_unit_range (cal : CalibrationSet) (t_fine : ℚ)
    (rs : RawSample) :
    (0 ≤ humidityPct cal t_fine rs.raw_humidity ∧
        humidityPct cal t_fine rs.raw_humidity ≤ 100) ∧
      0 ≤ (compensate cal rs).humidity_pct ∧
        (compensate cal rs).humidity_pct ≤ 100 := by
  have key : ∀ tf : ℚ, 0 ≤ humidityPct cal tf rs.raw_humidity ∧
      humidityPct cal tf rs.raw_humidity ≤ 100 := by
    intro tf
    rw [humidityPct]
    split
    · exact ⟨le_max_left 0 _, max_le (by norm_num) (min_le_left _ _)⟩
    · norm_num
  exact ⟨key t_fine, key _⟩

/-- C4: temperature compensation computes exactly the source formulas
for `var1`, `var2`, `t_fine = var1 + var2` and
`temperature_c = t_fine / 5120`, and the pressure and humidity steps of
the engine consume that same `t_fine`. -/
theorem temperature_formulas_and_t_fine_flow (cal : CalibrationSet)
    (rs : RawSample) :
    tFine cal rs.raw_temperature =
        ((rs.raw_temperature : ℚ) / 16384 - (cal.t1 : ℚ) / 1024) * (cal.t2 : ℚ) +
          (((rs.raw_temperature : ℚ) / 131072 - (cal.t1 : ℚ) / 8192) ^ 2) *
            (cal.t3 : ℚ) ∧
      temperatureC cal rs.raw_temperature = tFine cal rs.raw_temperature / 5120 ∧
      compensate cal rs =
        { temperature_c := temperatureC cal rs.raw_temperature
          pressure_hpa := pressureHpa cal (tFine cal rs.raw_temperature) rs.raw_pressure
          humidity_pct := humidityPct cal (tFine cal rs.raw_temperature) rs.raw_humidity } :=
  ⟨rfl, rfl, rfl⟩

/-- C6: when the computed `t_fine` equals 76800 exactly, the humidity
degenerate branch is taken and the compensation returns 0. -/
theorem humidity_zero_at_degenerate_t_fine (cal : CalibrationSet)
    (rs : RawSample) (h : tFine cal rs.raw_temperature = 76800) :
    humidityPct cal (tFine cal rs.raw_temperature) rs.raw_humidity = 0 ∧
      (compensate cal rs).humidity_pct = 0 := by
  have key : humidityPct cal (76800 : ℚ) rs.raw_humidity = 0 := by
    rw [humidityPct]
    norm_num
  have hc : (compensate cal rs).humidity_pct =
      humidityPct cal (tFine cal rs.raw_temperature) rs.raw_humidity := rfl
  rw [hc, h]
  exact ⟨key, key⟩

/-- A calibration set that drives `t_fine` to exactly 76800 at raw
temperature 65536: `t2 = 19200` and all other coefficients zero. -/
def calDegenerate : CalibrationSet where
  t1 := 0
  t2 := 19200
  t3 := 0
  p1 := 0
  p2 := 0
  p3 := 0
  p4 := 0
  p5 := 0
  p6 := 0
  p7 := 0
  p8 := 0
  p9 := 0
  h1 := 0
  h2 := 0
  h3 := 0
  h4 := 0
  h5 := 0
  h6 := 0

theorem humidity_zero_at_degenerate_t_fine_witness :
    tFine calDegenerate 65536 = 76800 ∧
      humidityPct calDegenerate (tFine calDegenerate 65536) 0 = 0 := by
  have htf : tFine calDegenerate 65536 = 76800 := by
    rw [tFine]
    norm_num [calDegenerate]
  exact ⟨htf,
    (humidity_zero_at_degenerate_t_fine calDegenerate ⟨0, 65536, 0⟩ htf).1⟩

/-- C9: the reported reading is the unrounded compensation rounded only
at the boundary — temperature and humidity to one decimal place,
pressure to two. -/
theorem rounding_only_at_boundary (cal : CalibrationSet) (rs : RawSample) :
    report cal rs =
      { temperature_c := roundTo 1 (temperatureC cal rs.raw_temperature)
        pressure_hpa :=
          roundTo 2 (pressureHpa cal (tFine cal rs.raw_temperature) rs.raw_pressure)
        humidity_pct :=
          roundTo 1 (humidityPct cal (tFine cal rs.raw_temperature) rs.raw_humidity) } :=
  rfl

theorem divQ_of_ne (a : ℚ) {b : ℚ} (h : b ≠ 0) : divQ a b = some (a / b) :=
  if_neg h

/-- C5: the pressure compensation returns 0 when the `p1`-derived
denominator is exactly zero, and otherwise every division in the formula
— modelled as fallible division — has a nonzero divisor, so the checked
computation never fails and agrees with the unchecked one. -/
theorem pressure_guard_no_div_by_zero (cal : CalibrationSet) (t_fine : ℚ)
    (raw_p : Nat) :
    (pVar1 cal t_fine = 0 → pressureHpa cal t_fine raw_p = 0) ∧
      pressureHpaChecked cal t_fine raw_p =
        some (pressureHpa cal t_fine raw_p) := by
  constructor
  · intro h
    rw [pressureHpa_eq_ite, if_neg (fun hn => hn h)]
  · rw [pressureHpaChecked, pressureHpa]
    simp (disch := norm_num) only [divQ_of_ne, Option.bind_eq_bind,
      Option.some_bind]
    split
    · next h =>
      rw [divQ_of_ne _ h]
      simp only [Option.some_bind]
    · rfl

theorem pressure_guard_no_div_by_zero_witness :
    pressureHpa calDegenerate 0 0 = 0 ∧
      pressureHpaChecked calDegenerate 0 0 = some (pressureHpa calDegenerate 0 0) :=
  ⟨(pressure_guard_no_div_by_zero calDegenerate 0 0).1
      (by rw [pVar1]; norm_num [calDegenerate]),
    (pressure_guard_no_div_by_zero calDegenerate 0 0).2⟩

theorem decode_error_iff_too_short_witness :
    decodeCalibration [] [] = Except.error CalError.MalformedCalibration :=
  (decode_error_iff_too_short [] []).mpr (by decide)

end BME280
